import Mathlib

/-!
Verification of the in-memory publish/subscribe message bus (`pubsub.py`).

The bus keeps a dictionary `dispatch` from topic name to the set of
subscribed data callbacks.  We embed it shallowly:

* topic names are `String`s, payloads an arbitrary type `α`;
* a callback value is identified by a `Nat` id; the environment functions
  `callable : Nat → Bool` (Python `callable(v)`) and
  `raises : Nat → String → α → Bool` (whether invoking the callback with a
  given topic and payload raises) describe the behaviour of those values;
* the dictionary is an association list `List (String × List Nat)`; the
  Python `set` of callbacks is a duplicate-free list maintained via
  insert-if-absent, iterated in some fixed order (the source order of the
  set is unspecified, so any one order is a faithful model);
* a raising operation returns the unchanged bus together with the error
  (Python raises before mutating in every such path), so state preservation
  on failure is a provable statement;
* `publish` additionally returns the list of callback invocation events it
  performed; an invocation that raised is recorded as a `raised` event —
  caught and logged by the dispatch loop, which continues with the rest.
-/

/-- Errors raised by the bus: `topicNotFound` is the `ValueError` of
`_check_topic_exists`, `invalidCallback` the `TypeError` of `subscribe`.
Each carries the formatted message. -/
inductive PubSubError where
  | topicNotFound (msg : String)
  | invalidCallback (msg : String)
deriving DecidableEq, Repr

/-- The bus state: `self.dispatch`, a dictionary of topic name to set of
data callbacks (callback ids). -/
structure PubSubBus where
  dispatch : List (String × List Nat)
deriving DecidableEq, Repr

/-- The freshly constructed bus: `self.dispatch = {}`. -/
def PubSubBus.empty : PubSubBus := ⟨[]⟩

/-- `topic_name in self.dispatch`. -/
def topicExists (bus : PubSubBus) (t : String) : Bool :=
  bus.dispatch.any (fun p => p.1 = t)

/-- `self.dispatch[topic_name]` as a lookup: the subscriber set of `t`. -/
def getTopic (bus : PubSubBus) (t : String) : Option (List Nat) :=
  (bus.dispatch.find? (fun p => p.1 = t)).map (fun p => p.2)

/-- `_check_topic_exists`: returns the `ValueError` to raise when the topic
does not exist, `none` otherwise. -/
def checkTopicExists (bus : PubSubBus) (t : String) : Option PubSubError :=
  if topicExists bus t then none
  else some (.topicNotFound ("Topic with name " ++ t ++ " does not exist"))

/-- `create_topic`: if the name is already a key, only log; otherwise bind
it to a fresh empty subscriber set. -/
def create_topic (bus : PubSubBus) (t : String) : PubSubBus :=
  if topicExists bus t then bus
  else ⟨bus.dispatch ++ [(t, [])]⟩

/-- Python `set.add`: insert the callback if it is not already a member. -/
def setAdd (cb : Nat) (subs : List Nat) : List Nat :=
  if cb ∈ subs then subs else subs ++ [cb]

/-- `self.dispatch[topic_name].add(data_callback)`: update the entry for
`t` by inserting the callback into its subscriber set. -/
def addCallback (bus : PubSubBus) (t : String) (cb : Nat) : PubSubBus :=
  ⟨bus.dispatch.map (fun p => if p.1 = t then (p.1, setAdd cb p.2) else p)⟩

/-- `subscribe`: check the topic exists, then that the callback is
callable, then add it to the topic entry.  Returns the bus after the call
together with the raised error, if any. -/
def subscribe (callable : Nat → Bool) (bus : PubSubBus) (t : String)
    (cb : Nat) : PubSubBus × Option PubSubError :=
  match checkTopicExists bus t with
  | some e => (bus, some e)
  | none =>
    if callable cb then
      (addCallback bus t cb, none)
    else
      (bus, some (.invalidCallback
        ("Attempted to add data callback that is not callable as callback for topic "
          ++ t)))

/-- One callback invocation event performed by `publish`: either the call
returned normally (`ok`) or it raised and the exception was caught and
logged (`raised`).  Both record the arguments `(topic_name, data)` the
callback was invoked with. -/
inductive CallEvent (α : Type) where
  | ok (cb : Nat) (topic : String) (data : α)
  | raised (cb : Nat) (topic : String) (data : α)
deriving DecidableEq, Repr

/-- The dispatch loop of `publish`: invoke each subscriber callback with
`(topic_name, data)`; a raising callback is caught (`except:`) and the
loop continues with the remaining subscribers. -/
def dispatchLoop (raises : Nat → String → α → Bool) (t : String) (d : α) :
    List Nat → List (CallEvent α)
  | [] => []
  | c :: cs =>
    (if raises c t d then CallEvent.raised c t d else CallEvent.ok c t d)
      :: dispatchLoop raises t d cs

/-- `publish`: check the topic exists, then run the dispatch loop over its
subscriber set.  Returns the bus after the call, the invocation events
performed, and the raised error, if any. -/
def publish (raises : Nat → String → α → Bool) (bus : PubSubBus)
    (t : String) (d : α) :
    PubSubBus × List (CallEvent α) × Option PubSubError :=
  match checkTopicExists bus t with
  | some e => (bus, [], some e)
  | none => (bus, dispatchLoop raises t d ((getTopic bus t).getD []), none)

/-- The callback id an event belongs to. -/
def eventCb : CallEvent α → Nat
  | .ok c _ _ => c
  | .raised c _ _ => c

/-- The callback `c` was invoked with arguments `(t, d)` during the given
event list (whether or not its own invocation raised). -/
def invokedWith (events : List (CallEvent α)) (c : Nat) (t : String)
    (d : α) : Prop :=
  CallEvent.ok c t d ∈ events ∨ CallEvent.raised c t d ∈ events

instance [DecidableEq α] (events : List (CallEvent α)) (c : Nat)
    (t : String) (d : α) : Decidable (invokedWith events c t d) := by
  unfold invokedWith; infer_instance

/-- How many times the callback `c` was invoked in the given event list. -/
def invocationCount (events : List (CallEvent α)) (c : Nat) : Nat :=
  events.countP (fun e => eventCb e == c)

/-- One of the three public bus operations, for stating properties of
arbitrary call sequences. -/
inductive BusOp (α : Type) where
  | createTopic (t : String)
  | subscribeOp (t : String) (cb : Nat)
  | publishOp (t : String) (d : α)

/-- The bus state after performing one operation (errors are raised to the
caller; the bus passed on is the state after the call). -/
def applyOp (callable : Nat → Bool) (raises : Nat → String → α → Bool)
    (bus : PubSubBus) : BusOp α → PubSubBus
  | .createTopic t => create_topic bus t
  | .subscribeOp t cb => (subscribe callable bus t cb).1
  | .publishOp t d => (publish raises bus t d).1

/-- The bus state after a sequence of operations. -/
def runOps (callable : Nat → Bool) (raises : Nat → String → α → Bool)
    (bus : PubSubBus) : List (BusOp α) → PubSubBus
  | [] => bus
  | op :: ops => runOps callable raises (applyOp callable raises bus op) ops

example :
    getTopic (create_topic PubSubBus.empty "foo") "foo" = some [] := by decide

example :
    (subscribe (fun _ => true) (create_topic PubSubBus.empty "foo") "foo" 3).1
      = ⟨[("foo", [3])]⟩ := by decide

example :
    (publish (fun c _ _ => c == 3) ⟨[("foo", [3, 5])]⟩ "foo" (7 : Nat)).2.1
      = [CallEvent.raised 3 "foo" 7, CallEvent.ok 5 "foo" 7] := by decide

section Helpers

variable {α : Type}

theorem topicExists_of_getTopic {bus : PubSubBus} {t : String}
    {subs : List Nat} (h : getTopic bus t = some subs) :
    topicExists bus t = true := by
  unfold getTopic at h
  unfold topicExists
  cases hf : bus.dispatch.find? (fun p => p.1 = t) with
  | none => rw [hf] at h; simp at h
  | some p =>
    have hp := List.find?_some hf
    have hmem := List.mem_of_find?_eq_some hf
    exact List.any_eq_true.mpr ⟨p, hmem, hp⟩

theorem getTopic_of_topicExists {bus : PubSubBus} {t : String}
    (h : topicExists bus t = true) :
    ∃ subs, getTopic bus t = some subs := by
  unfold topicExists at h
  obtain ⟨p, hmem, hp⟩ := List.any_eq_true.mp h
  have : (bus.dispatch.find? (fun q => q.1 = t)).isSome :=
    List.find?_isSome.mpr ⟨p, hmem, hp⟩
  obtain ⟨q, hq⟩ := Option.isSome_iff_exists.mp this
  exact ⟨q.2, by unfold getTopic; rw [hq]; rfl⟩

theorem checkTopicExists_eq_none {bus : PubSubBus} {t : String}
    (h : topicExists bus t = true) : checkTopicExists bus t = none := by
  unfold checkTopicExists; rw [h]; rfl

theorem checkTopicExists_eq_some {bus : PubSubBus} {t : String}
    (h : topicExists bus t = false) :
    checkTopicExists bus t
      = some (.topicNotFound ("Topic with name " ++ t ++ " does not exist")) := by
  unfold checkTopicExists; rw [h]; rfl

theorem invokedWith_dispatchLoop (raises : Nat → String → α → Bool)
    (t : String) (d : α) {subs : List Nat} {c : Nat} (h : c ∈ subs) :
    invokedWith (dispatchLoop raises t d subs) c t d := by
  induction subs with
  | nil => cases h
  | cons x xs ih =>
    rcases List.mem_cons.mp h with rfl | hx
    · by_cases hr : raises c t d
      · exact Or.inr (by simp [dispatchLoop, hr])
      · exact Or.inl (by simp [dispatchLoop, hr])
    · rcases ih hx with h1 | h1
      · exact Or.inl (by simp [dispatchLoop]; right; exact h1)
      · exact Or.inr (by simp [dispatchLoop]; right; exact h1)

theorem eventCb_ite (raises : Nat → String → α → Bool) (c : Nat)
    (t : String) (d : α) :
    eventCb (if raises c t d then CallEvent.raised c t d
             else CallEvent.ok c t d) = c := by
  by_cases hr : raises c t d <;> simp [hr, eventCb]

theorem invocationCount_dispatchLoop (raises : Nat → String → α → Bool)
    (t : String) (d : α) (subs : List Nat) (c : Nat) :
    invocationCount (dispatchLoop raises t d subs) c = subs.count c := by
  induction subs with
  | nil => rfl
  | cons x xs ih =>
    unfold invocationCount at ih ⊢
    rw [dispatchLoop, List.countP_cons, ih, List.count_cons, eventCb_ite]

end Helpers

section Helpers2

variable {α : Type}

theorem find?_map_update (l : List (String × List Nat)) (t : String)
    (cb : Nat) :
    (l.map (fun p => if p.1 = t then (p.1, setAdd cb p.2) else p)).find?
        (fun p => p.1 = t)
      = (l.find? (fun p => p.1 = t)).map
          (fun p => (p.1, setAdd cb p.2)) := by
  induction l with
  | nil => rfl
  | cons x xs ih =>
    by_cases hx : x.1 = t
    · simp [List.find?, hx]
    · simp [List.find?, hx, ih]

theorem getTopic_addCallback_self (bus : PubSubBus) (t : String)
    (cb : Nat) :
    getTopic (addCallback bus t cb) t = (getTopic bus t).map (setAdd cb) := by
  unfold getTopic addCallback
  rw [find?_map_update]
  cases bus.dispatch.find? (fun p => p.1 = t) <;> rfl

theorem getTopic_addCallback_other (bus : PubSubBus) (t t' : String)
    (hne : t' ≠ t) (cb : Nat) :
    getTopic (addCallback bus t cb) t' = getTopic bus t' := by
  unfold getTopic addCallback
  have : (bus.dispatch.map
      (fun p => if p.1 = t then (p.1, setAdd cb p.2) else p)).find?
        (fun p => p.1 = t')
      = bus.dispatch.find? (fun p => p.1 = t') := by
    induction bus.dispatch with
    | nil => rfl
    | cons x xs ih =>
      by_cases hx : x.1 = t
      · by_cases hx' : x.1 = t'
        · exact absurd (hx'.symm.trans hx) hne
        · simp [List.find?, hx, hx',
            show ¬ t = t' from fun h => hne h.symm, ih]
      · by_cases hx' : x.1 = t'
        · simp [List.find?, hx, hx', hne]
        · simp [List.find?, hx, hx', ih]
  rw [this]

theorem topicExists_addCallback (bus : PubSubBus) (t t' : String)
    (cb : Nat) :
    topicExists (addCallback bus t cb) t' = topicExists bus t' := by
  unfold topicExists addCallback
  induction bus.dispatch with
  | nil => rfl
  | cons x xs ih =>
    by_cases hx : x.1 = t <;> simp [List.any_cons, hx, ih]

theorem setAdd_mem (cb : Nat) (subs : List Nat) : cb ∈ setAdd cb subs := by
  unfold setAdd
  by_cases h : cb ∈ subs <;> simp [h]

theorem setAdd_idem (cb : Nat) (subs : List Nat) :
    setAdd cb (setAdd cb subs) = setAdd cb subs := by
  unfold setAdd
  by_cases h : cb ∈ subs
  · simp [h]
  · simp [h]

theorem addCallback_idem (bus : PubSubBus) (t : String) (cb : Nat) :
    addCallback (addCallback bus t cb) t cb = addCallback bus t cb := by
  unfold addCallback
  rw [PubSubBus.mk.injEq, List.map_map]
  apply List.map_congr_left
  intro p _
  by_cases hp : p.1 = t
  · simp [Function.comp, hp, setAdd_idem]
  · simp [Function.comp, hp]

theorem count_setAdd_self {cb : Nat} {subs : List Nat}
    (hnd : subs.Nodup) : (setAdd cb subs).count cb = 1 := by
  unfold setAdd
  by_cases h : cb ∈ subs
  · rw [if_pos h]
    exact Nat.le_antisymm (List.nodup_iff_count_le_one.mp hnd cb)
      (List.count_pos_iff.mpr h)
  · rw [if_neg h, List.count_append, List.count_eq_zero.mpr h]
    simp

theorem topicExists_create_topic_self (bus : PubSubBus) (t : String) :
    topicExists (create_topic bus t) t = true := by
  unfold create_topic
  by_cases h : topicExists bus t
  · rw [if_pos h]; exact h
  · rw [if_neg h]
    unfold topicExists
    simp

theorem topicExists_create_topic_mono {bus : PubSubBus} {t : String}
    (t' : String) (h : topicExists bus t' = true) :
    topicExists (create_topic bus t) t' = true := by
  unfold create_topic
  by_cases hex : topicExists bus t
  · rw [if_pos hex]; exact h
  · rw [if_neg hex]
    unfold topicExists at h ⊢
    simp only [List.any_append, h, Bool.true_or]

theorem subscribe_topic_missing (callable : Nat → Bool) {bus : PubSubBus}
    {t : String} (cb : Nat) (h : topicExists bus t = false) :
    subscribe callable bus t cb
      = (bus, some (.topicNotFound
          ("Topic with name " ++ t ++ " does not exist"))) := by
  unfold subscribe
  rw [checkTopicExists_eq_some h]

theorem publish_topic_missing (raises : Nat → String → α → Bool)
    {bus : PubSubBus} {t : String} (d : α) (h : topicExists bus t = false) :
    publish raises bus t d
      = (bus, [], some (.topicNotFound
          ("Topic with name " ++ t ++ " does not exist"))) := by
  unfold publish
  rw [checkTopicExists_eq_some h]

theorem publish_topic_found (raises : Nat → String → α → Bool)
    {bus : PubSubBus} {t : String} {subs : List Nat} (d : α)
    (h : getTopic bus t = some subs) :
    publish raises bus t d = (bus, dispatchLoop raises t d subs, none) := by
  unfold publish
  rw [checkTopicExists_eq_none (topicExists_of_getTopic h), h]
  rfl

theorem subscribe_success (callable : Nat → Bool) {bus : PubSubBus}
    {t : String} {cb : Nat} (hex : topicExists bus t = true)
    (hc : callable cb = true) :
    subscribe callable bus t cb = (addCallback bus t cb, none) := by
  unfold subscribe
  rw [checkTopicExists_eq_none hex, hc]
  rfl

end Helpers2

section MoreHelpers

variable {α : Type}

theorem create_topic_exists_noop {bus : PubSubBus} {t : String}
    (h : topicExists bus t = true) : create_topic bus t = bus := by
  unfold create_topic; rw [if_pos h]

theorem find?_append_of_none {β : Type} (l₁ l₂ : List β) (p : β → Bool)
    (h : l₁.find? p = none) : (l₁ ++ l₂).find? p = l₂.find? p := by
  rw [List.find?_append, h, Option.none_or]

theorem find?_eq_none_of_not_exists {bus : PubSubBus} {t : String}
    (h : topicExists bus t = false) :
    bus.dispatch.find? (fun p => p.1 = t) = none := by
  rw [List.find?_eq_none]
  intro x hx hx1
  have : topicExists bus t = true := List.any_eq_true.mpr ⟨x, hx, hx1⟩
  rw [h] at this
  cases this

theorem subscribe_fst_cases (callable : Nat → Bool) (bus : PubSubBus)
    (t : String) (cb : Nat) :
    (subscribe callable bus t cb).1 = bus ∨
    (subscribe callable bus t cb).1 = addCallback bus t cb := by
  unfold subscribe
  split
  · left; rfl
  · split
    · right; rfl
    · left; rfl

theorem publish_fst (raises : Nat → String → α → Bool) (bus : PubSubBus)
    (t : String) (d : α) : (publish raises bus t d).1 = bus := by
  unfold publish
  split <;> rfl

theorem topicExists_applyOp (callable : Nat → Bool)
    (raises : Nat → String → α → Bool) (bus : PubSubBus) (t : String)
    (op : BusOp α) (h : topicExists bus t = true) :
    topicExists (applyOp callable raises bus op) t = true := by
  cases op with
  | createTopic t' => exact topicExists_create_topic_mono t h
  | subscribeOp t' cb =>
    show topicExists (subscribe callable bus t' cb).1 t = true
    rcases subscribe_fst_cases callable bus t' cb with heq | heq
    · rw [heq]; exact h
    · rw [heq, topicExists_addCallback]; exact h
  | publishOp t' d =>
    show topicExists (publish raises bus t' d).1 t = true
    rw [publish_fst]; exact h

end MoreHelpers

/-- C1: if a topic has two distinct subscribed callbacks and one of them
raises while `publish` dispatches, every other callback subscribed to the
topic is still invoked with the same `(topic, data)` arguments, and the
`publish` call itself returns without raising any error to the
publisher. -/
theorem publish_fault_isolation {α : Type} (raises : Nat → String → α → Bool)
    (bus : PubSubBus) (t : String) (d : α) (subs : List Nat) (c1 c2 : Nat)
    (hsubs : getTopic bus t = some subs) (h1 : c1 ∈ subs) (h2 : c2 ∈ subs)
    (hne : c2 ≠ c1) (hraises : raises c1 t d = true) :
    (publish raises bus t d).2.2 = none ∧
      invokedWith (publish raises bus t d).2.1 c2 t d := by
  rw [publish_topic_found raises d hsubs]
  exact ⟨rfl, invokedWith_dispatchLoop raises t d h2⟩

theorem publish_fault_isolation_witness :
    (publish (fun c _ _ => c == 1) ⟨[("t", [1, 2])]⟩ "t" (5 : Nat)).2.2 = none ∧
      invokedWith (publish (fun c _ _ => c == 1) ⟨[("t", [1, 2])]⟩ "t"
        (5 : Nat)).2.1 2 "t" 5 :=
  publish_fault_isolation (fun c _ _ => c == 1) ⟨[("t", [1, 2])]⟩ "t" 5
    [1, 2] 1 2 (by decide) (by decide) (by decide) (by decide) (by decide)

/-- C2: for a topic name never created, both `publish` and `subscribe`
fail with the topic-not-found error, raised before any registry mutation
and before any callback is invoked: the returned bus equals the input bus
and the invocation event list is empty. -/
theorem topic_not_found_rejected {α : Type} (callable : Nat → Bool)
    (raises : Nat → String → α → Bool) (bus : PubSubBus) (t : String)
    (h : topicExists bus t = false) :
    (∀ d : α, publish raises bus t d
        = (bus, [], some (.topicNotFound
            ("Topic with name " ++ t ++ " does not exist")))) ∧
    (∀ cb : Nat, subscribe callable bus t cb
        = (bus, some (.topicNotFound
            ("Topic with name " ++ t ++ " does not exist")))) :=
  ⟨fun d => publish_topic_missing raises d h,
   fun cb => subscribe_topic_missing callable cb h⟩

theorem topic_not_found_rejected_witness :
    publish (fun _ _ _ => false) PubSubBus.empty "bar" (5 : Nat)
        = (PubSubBus.empty, [], some (.topicNotFound
            ("Topic with name " ++ "bar" ++ " does not exist"))) ∧
    subscribe (fun _ => true) PubSubBus.empty "bar" 7
        = (PubSubBus.empty, some (.topicNotFound
            ("Topic with name " ++ "bar" ++ " does not exist"))) :=
  ⟨(@topic_not_found_rejected Nat (fun _ => true) (fun _ _ _ => false)
      PubSubBus.empty "bar" (by decide)).1 5,
   (@topic_not_found_rejected Nat (fun _ => true) (fun _ _ _ => false)
      PubSubBus.empty "bar" (by decide)).2 7⟩

/-- C3: subscribing a non-callable value to an existing topic fails with
the invalid-callback error and leaves the bus (the whole registry, hence
the topic's subscriber set) exactly as it was. -/
theorem subscribe_invalid_callback_rejected (callable : Nat → Bool)
    (bus : PubSubBus) (t : String) (cb : Nat)
    (hex : topicExists bus t = true) (hcb : callable cb = false) :
    subscribe callable bus t cb
      = (bus, some (.invalidCallback
          ("Attempted to add data callback that is not callable as callback for topic "
            ++ t))) := by
  unfold subscribe
  rw [checkTopicExists_eq_none hex, hcb]
  rfl

theorem subscribe_invalid_callback_rejected_witness :
    subscribe (fun _ => false) ⟨[("t", [])]⟩ "t" 0
      = (⟨[("t", [])]⟩, some (.invalidCallback
          ("Attempted to add data callback that is not callable as callback for topic "
            ++ "t"))) :=
  subscribe_invalid_callback_rejected (fun _ => false) ⟨[("t", [])]⟩ "t" 0
    (by decide) (by decide)

/-- C4: `create_topic` is idempotent: a repeated call changes nothing (a
second call on the result of a first is a no-op), and after the first call
on a fresh name the topic's subscriber set is empty. -/
theorem create_topic_idempotent (bus : PubSubBus) (t : String) :
    create_topic (create_topic bus t) t = create_topic bus t ∧
    (topicExists bus t = false →
      getTopic (create_topic bus t) t = some []) := by
  constructor
  · exact create_topic_exists_noop (topicExists_create_topic_self bus t)
  · intro h
    have hnone := find?_eq_none_of_not_exists h
    unfold create_topic
    rw [if_neg (by rw [h]; exact Bool.false_ne_true)]
    unfold getTopic
    rw [find?_append_of_none _ _ _ hnone]
    simp [List.find?]

theorem create_topic_idempotent_witness :
    create_topic (create_topic PubSubBus.empty "a") "a"
        = create_topic PubSubBus.empty "a" ∧
    getTopic (create_topic PubSubBus.empty "a") "a" = some [] :=
  ⟨(create_topic_idempotent PubSubBus.empty "a").1,
   (create_topic_idempotent PubSubBus.empty "a").2 (by decide)⟩

/-- C5: subscribing the identical callback twice to an existing topic
yields the same bus as subscribing it once, and a subsequent `publish`
invokes that callback exactly once, not twice. -/
theorem subscribe_idempotent_delivery {α : Type} (callable : Nat → Bool)
    (raises : Nat → String → α → Bool) (bus : PubSubBus) (t : String)
    (c : Nat) (d : α) (subs : List Nat)
    (hsubs : getTopic bus t = some subs) (hnd : subs.Nodup)
    (hc : callable c = true) :
    (subscribe callable (subscribe callable bus t c).1 t c).1
        = (subscribe callable bus t c).1 ∧
    invocationCount
        (publish raises (subscribe callable bus t c).1 t d).2.1 c = 1 := by
  have hex : topicExists bus t = true := topicExists_of_getTopic hsubs
  have h1 : subscribe callable bus t c = (addCallback bus t c, none) :=
    subscribe_success callable hex hc
  have hex1 : topicExists (addCallback bus t c) t = true := by
    rw [topicExists_addCallback]; exact hex
  have h2 : subscribe callable (addCallback bus t c) t c
      = (addCallback (addCallback bus t c) t c, none) :=
    subscribe_success callable hex1 hc
  have hget1 : getTopic (addCallback bus t c) t = some (setAdd c subs) := by
    rw [getTopic_addCallback_self, hsubs]; rfl
  have hpub : publish raises (addCallback bus t c) t d
      = (addCallback bus t c, dispatchLoop raises t d (setAdd c subs),
          none) :=
    publish_topic_found raises d hget1
  constructor
  · simp only [h1, h2, addCallback_idem]
  · simp only [h1, hpub, invocationCount_dispatchLoop]
    exact count_setAdd_self hnd

theorem subscribe_idempotent_delivery_witness :
    (subscribe (fun _ => true)
        (subscribe (fun _ => true) ⟨[("t", [])]⟩ "t" 3).1 "t" 3).1
      = (subscribe (fun _ => true) ⟨[("t", [])]⟩ "t" 3).1 ∧
    invocationCount
        (publish (fun _ _ _ => false)
          (subscribe (fun _ => true) ⟨[("t", [])]⟩ "t" 3).1 "t"
          (9 : Nat)).2.1 3 = 1 :=
  subscribe_idempotent_delivery (fun _ => true) (fun _ _ _ => false)
    ⟨[("t", [])]⟩ "t" 3 9 [] (by decide) (by decide) (by decide)

/-- C6: after subscribing a callback to an existing topic, publishing a
payload on that topic invokes the callback exactly once, and that
invocation receives exactly the published topic name and payload. -/
theorem subscribe_publish_delivers_once {α : Type} (callable : Nat → Bool)
    (raises : Nat → String → α → Bool) (bus : PubSubBus) (t : String)
    (c : Nat) (d : α) (subs : List Nat)
    (hsubs : getTopic bus t = some subs) (hnd : subs.Nodup)
    (hc : callable c = true) :
    invocationCount
        (publish raises (subscribe callable bus t c).1 t d).2.1 c = 1 ∧
    invokedWith (publish raises (subscribe callable bus t c).1 t d).2.1
        c t d := by
  have hex : topicExists bus t = true := topicExists_of_getTopic hsubs
  have h1 : subscribe callable bus t c = (addCallback bus t c, none) :=
    subscribe_success callable hex hc
  have hget1 : getTopic (addCallback bus t c) t = some (setAdd c subs) := by
    rw [getTopic_addCallback_self, hsubs]; rfl
  have hpub : publish raises (addCallback bus t c) t d
      = (addCallback bus t c, dispatchLoop raises t d (setAdd c subs),
          none) :=
    publish_topic_found raises d hget1
  constructor
  · simp only [h1, hpub, invocationCount_dispatchLoop]
    exact count_setAdd_self hnd
  · simp only [h1, hpub]
    exact invokedWith_dispatchLoop raises t d (setAdd_mem c subs)

theorem subscribe_publish_delivers_once_witness :
    invocationCount
        (publish (fun _ _ _ => false)
          (subscribe (fun _ => true) ⟨[("t", [])]⟩ "t" 4).1 "t"
          (2 : Nat)).2.1 4 = 1 ∧
    invokedWith
        (publish (fun _ _ _ => false)
          (subscribe (fun _ => true) ⟨[("t", [])]⟩ "t" 4).1 "t"
          (2 : Nat)).2.1 4 "t" 2 :=
  subscribe_publish_delivers_once (fun _ => true) (fun _ _ _ => false)
    ⟨[("t", [])]⟩ "t" 4 2 [] (by decide) (by decide) (by decide)

/-- C7: a callback that is subscribed to topic `t` but not to a distinct
topic `t2` is never invoked by a publish on `t2`: delivery goes only to
the published topic's own subscriber set. -/
theorem publish_other_topic_no_delivery {α : Type}
    (raises : Nat → String → α → Bool) (bus : PubSubBus) (t t2 : String)
    (d : α) (c : Nat) (subs subs2 : List Nat) (hne : t2 ≠ t)
    (hsubs : getTopic bus t = some subs) (hmem : c ∈ subs)
    (hsubs2 : getTopic bus t2 = some subs2) (hnotmem : c ∉ subs2) :
    invocationCount (publish raises bus t2 d).2.1 c = 0 := by
  rw [publish_topic_found raises d hsubs2]
  show invocationCount (dispatchLoop raises t2 d subs2) c = 0
  rw [invocationCount_dispatchLoop]
  exact List.count_eq_zero.mpr hnotmem

theorem publish_other_topic_no_delivery_witness :
    invocationCount
        (publish (fun _ _ _ => false) ⟨[("a", [1]), ("b", [2])]⟩ "b"
          (0 : Nat)).2.1 1 = 0 :=
  publish_other_topic_no_delivery (fun _ _ _ => false)
    ⟨[("a", [1]), ("b", [2])]⟩ "a" "b" 0 1 [1] [2] (by decide) (by decide)
    (by decide) (by decide) (by decide)

/-- C8: `publish` on an existing topic never mutates the registry: the bus
after the call equals the bus before it, for every behaviour of the
subscriber callbacks, raising ones included. -/
theorem publish_preserves_registry {α : Type}
    (raises : Nat → String → α → Bool) (bus : PubSubBus) (t : String)
    (d : α) (hex : topicExists bus t = true) :
    (publish raises bus t d).1 = bus :=
  publish_fst raises bus t d

theorem publish_preserves_registry_witness :
    (publish (fun _ _ _ => true) ⟨[("t", [1])]⟩ "t" (3 : Nat)).1
      = ⟨[("t", [1])]⟩ :=
  publish_preserves_registry (fun _ _ _ => true) ⟨[("t", [1])]⟩ "t" 3
    (by decide)

/-- C9: topic existence is monotonic: a topic present in the registry is
still present after any sequence of `create_topic`, `subscribe` and
`publish` calls, whether they succeed or fail — no operation removes a
topic. -/
theorem topic_existence_monotonic {α : Type} (callable : Nat → Bool)
    (raises : Nat → String → α → Bool) (bus : PubSubBus) (t : String)
    (ops : List (BusOp α)) (h : topicExists bus t = true) :
    topicExists (runOps callable raises bus ops) t = true := by
  induction ops generalizing bus with
  | nil => exact h
  | cons op ops ih =>
    exact ih _ (topicExists_applyOp callable raises bus t op h)

theorem topic_existence_monotonic_witness :
    topicExists
      (runOps (fun _ => true) (fun _ _ _ => false) ⟨[("t", [])]⟩
        [BusOp.createTopic "u", BusOp.subscribeOp "t" 5,
         BusOp.publishOp "t" (0 : Nat), BusOp.subscribeOp "v" 1])
      "t" = true :=
  topic_existence_monotonic (fun _ => true) (fun _ _ _ => false)
    ⟨[("t", [])]⟩ "t"
    [BusOp.createTopic "u", BusOp.subscribeOp "t" 5,
     BusOp.publishOp "t" (0 : Nat), BusOp.subscribeOp "v" 1] (by decide)

/-- C10: in `subscribe` the topic-existence check runs before the
callback-invokability check: on a never-created topic with a non-callable
value, the call fails with the topic-not-found error (not the
invalid-callback one) and leaves the bus unchanged. -/
theorem subscribe_topic_check_first (callable : Nat → Bool)
    (bus : PubSubBus) (t : String) (cb : Nat)
    (h : topicExists bus t = false) (hcb : callable cb = false) :
    subscribe callable bus t cb
      = (bus, some (.topicNotFound
          ("Topic with name " ++ t ++ " does not exist"))) :=
  subscribe_topic_missing callable cb h

theorem subscribe_topic_check_first_witness :
    subscribe (fun _ => false) PubSubBus.empty "x" 0
      = (PubSubBus.empty, some (.topicNotFound
          ("Topic with name " ++ "x" ++ " does not exist"))) :=
  subscribe_topic_check_first (fun _ => false) PubSubBus.empty "x" 0
    (by decide) (by decide)
